import Mathlib

/-!
Shallow embedding of the mar5 file-submission page (`src/app/page.tsx`):
selection management, thumbnail generation, file-name sanitization,
the sequential upload pipeline, and the submission orchestrator.
-/

namespace Mar5

/-- A selected file as the component sees it: original name and mime type. -/
structure SelectedFile where
  name : String
  mimeType : String
  deriving Repr, DecidableEq

/-- Component state: the six `useState` cells of the `Home` component. -/
structure ComponentState where
  submitting : Bool
  success : Bool
  error : String
  files : List SelectedFile
  filePreviews : List String
  progress : Nat
  deriving Repr, DecidableEq

/-- Initial state of the component: all flags false, empty lists, progress 0. -/
def initialState : ComponentState :=
  { submitting := false, success := false, error := "", files := [],
    filePreviews := [], progress := 0 }

/-- The UIState abstraction of the spec's data model (section 3). -/
inductive UIState where
  | Idle
  | Submitting (progress : Nat)
  | Success
  | Error (msg : String)
  deriving Repr, DecidableEq

/-- Derive the spec's UIState from the component's boolean flags. -/
def uiStateOf (s : ComponentState) : UIState :=
  if s.submitting then .Submitting s.progress
  else if s.success then .Success
  else if s.error = "" then .Idle
  else .Error s.error

/-- Characters kept unchanged by sanitization: the class `[a-zA-Z0-9._-]`. -/
def isAllowedChar (c : Char) : Bool :=
  (decide ('a' ≤ c) && decide (c ≤ 'z')) ||
  (decide ('A' ≤ c) && decide (c ≤ 'Z')) ||
  (decide ('0' ≤ c) && decide (c ≤ '9')) ||
  c == '.' || c == '_' || c == '-'

/-- Replacement applied to each character by `name.replace(/[^a-zA-Z0-9._-]/g, '_')`. -/
def sanitizeChar (c : Char) : Char :=
  if isAllowedChar c then c else '_'

/-- The helper `sanitizeFileName` of the page: map `sanitizeChar` over the name. -/
def sanitizeFileName (name : String) : String :=
  ⟨name.data.map sanitizeChar⟩

/-- Decimal digit character for a value below ten. -/
def digitChar : Nat → Char
  | 0 => '0' | 1 => '1' | 2 => '2' | 3 => '3' | 4 => '4'
  | 5 => '5' | 6 => '6' | 7 => '7' | 8 => '8' | _ => '9'

/-- Decimal digits of a natural number, most significant first, onto `acc`.
The `fuel` argument only bounds the recursion depth; every call below passes
more fuel than there are digits, so the `0` branch is never reached. -/
def natToDigitsAux (fuel : Nat) (n : Nat) (acc : List Char) : List Char :=
  match fuel with
  | 0 => acc
  | f + 1 =>
    if n < 10 then digitChar n :: acc
    else natToDigitsAux f (n / 10) (digitChar (n % 10) :: acc)

/-- Decimal digits of a natural number, most significant first, onto `acc`. -/
def natToDigits (n : Nat) (acc : List Char) : List Char :=
  natToDigitsAux (n + 1) n acc

/-- String interpolation of a nonnegative integer, as `${Date.now()}` renders it. -/
def jsNumToString (n : Nat) : String :=
  ⟨natToDigits n []⟩

/-- Storage key generated by the upload loop: `${Date.now()}_${sanitizeFileName(file.name)}`. -/
def storageKey (epochMillis : Nat) (name : String) : String :=
  jsNumToString epochMillis ++ "_" ++ sanitizeFileName name

/-- Matcher for a regular expression of the shape `^\d+_<literal>$` where the
literal starts with a non-digit: the string is a nonempty run of digits
followed exactly by the literal. -/
def matchesDigitsThen (literal : String) (s : String) : Bool :=
  decide (s.data.takeWhile (fun c => c.isDigit) ≠ []) &&
  s.data.dropWhile (fun c => c.isDigit) == literal.data

/-- Matcher for the spec's regex `^\d+_my_photo__1__\.MOV$`. -/
def matchesSpecKeyRegex (s : String) : Bool :=
  matchesDigitsThen "_my_photo__1__.MOV" s

/-- Matcher for the regex `^\d+_my_photo__1_\.MOV$` (one underscore before the dot). -/
def matchesActualKeyRegex (s : String) : Bool :=
  matchesDigitsThen "_my_photo__1_.MOV" s

/-- Embedding of `String.startsWith` as a character-list prefix test. -/
def startsWithStr (s pre : String) : Bool :=
  pre.data.isPrefixOf s.data

/-- Outcome of the media element's load inside `generateThumbnail`: either the
load event fires (with or without a usable 2d canvas context) or the error
event fires. -/
inductive LoadOutcome where
  | loadSuccess (ctxOk : Bool)
  | loadFailure
  deriving Repr, DecidableEq

/-- Result of one `generateThumbnail` run: the resolved string plus which
object-URL effects happened along the way. -/
structure ThumbResult where
  result : String
  urlCreated : Bool
  urlRevoked : Bool
  deriving Repr, DecidableEq

/-- Embedding of `generateThumbnail`. For a `video/` file the code creates an
object URL; on `onloadeddata` it resolves to the canvas data URI (or "" when
the 2d context is unavailable) and then revokes the URL; on `onerror` it
resolves to "" without revoking. The `image/` branch is identical in shape.
Any other mime type resolves to "" immediately, creating no URL.
`dataUri` stands for `canvas.toDataURL("image/png")`. -/
def generateThumbnail (file : SelectedFile) (outcome : LoadOutcome)
    (dataUri : String) : ThumbResult :=
  if startsWithStr file.mimeType "video/" then
    match outcome with
    | .loadSuccess ctxOk =>
        { result := if ctxOk then dataUri else "", urlCreated := true, urlRevoked := true }
    | .loadFailure =>
        { result := "", urlCreated := true, urlRevoked := false }
  else if startsWithStr file.mimeType "image/" then
    match outcome with
    | .loadSuccess ctxOk =>
        { result := if ctxOk then dataUri else "", urlCreated := true, urlRevoked := true }
    | .loadFailure =>
        { result := "", urlCreated := true, urlRevoked := false }
  else
    { result := "", urlCreated := false, urlRevoked := false }

/-- Error message shown when more than ten files are selected. -/
def capacityError : String := "You can upload a maximum of 10 files."

/-- Embedding of `handleFileChange` as the ordered list of states the component
passes through, one entry per state-setter call. Over the cap: `setError`,
`setFiles([])`, `setFilePreviews([])`. Under the cap: `setError("")`,
`setFiles(selected)`, then — after awaiting all thumbnails — `setFilePreviews`.
`outcome i` and `uri i` feed `generateThumbnail` for the i-th selected file. -/
def handleFileChangeTrace (s : ComponentState) (selected : List SelectedFile)
    (outcome : Nat → LoadOutcome) (uri : Nat → String) : List ComponentState :=
  if selected.length > 10 then
    let s1 := { s with error := capacityError }
    let s2 := { s1 with files := [] }
    let s3 := { s2 with filePreviews := [] }
    [s1, s2, s3]
  else
    let s1 := { s with error := "" }
    let s2 := { s1 with files := selected }
    let previews := selected.enum.map
      (fun p => (generateThumbnail p.2 (outcome p.1) (uri p.1)).result)
    let s3 := { s2 with filePreviews := previews }
    [s1, s2, s3]

/-- Embedding of `list.filter((_, i) => i !== index)`: keep the elements whose
position differs from `index`. -/
def filterIdxNe (index : Nat) (l : List α) : List α :=
  (l.enum.filter (fun p => p.1 != index)).map Prod.snd

/-- Embedding of `removeFile`: filter both lists by position. -/
def removeFile (s : ComponentState) (index : Nat) : ComponentState :=
  { s with files := filterIdxNe index s.files,
           filePreviews := filterIdxNe index s.filePreviews }

/-- A successfully uploaded file as pushed onto `uploadedFiles`. -/
structure UploadedFileRecord where
  name : String
  url : String
  deriving Repr, DecidableEq

/-- The three required form fields. -/
structure FormFields where
  name : String
  email : String
  message : String
  deriving Repr, DecidableEq

/-- The record inserted into the `submissions` table. -/
structure SubmissionPayload where
  name : String
  email : String
  message : String
  files : List UploadedFileRecord
  submitted_at : String
  deriving Repr, DecidableEq

/-- Rounding `Math.round((k / n) * 100)` of the exact ratio: round-half-up of
`100 * k / n`, i.e. `⌊(100k + n/2) / n⌋ = (200k + n) / (2n)` in Nat division. -/
def roundPct (k n : Nat) : Nat :=
  (200 * k + n) / (2 * n)

/-- Generic error message set in the `catch` block of `handleSubmit`. -/
def uploadFailedError : String := "Upload failed. Please try again."

/-- One step result of the upload loop: records pushed, progress values set,
number of upload calls made, and whether the loop finished without throwing. -/
structure UploadLoopResult where
  records : List UploadedFileRecord
  progressValues : List Nat
  attempted : Nat
  ok : Bool
  deriving Repr, DecidableEq

/-- Embedding of the `for` loop of `handleSubmit`: strictly sequential; for
each file compute the storage key, attempt the upload (`uploadOk i` tells
whether the storage call succeeds), on success resolve the public URL
(`publicUrl`), push the record and set progress; on failure throw, so nothing
further is attempted. `total` is `files.length`; `epochAt i` is the value of
`Date.now()` at iteration `i`. -/
def uploadLoop (total : Nat) (uploadOk : Nat → Bool) (epochAt : Nat → Nat)
    (publicUrl : String → String) : List SelectedFile → Nat → UploadLoopResult
  | [], _ => { records := [], progressValues := [], attempted := 0, ok := true }
  | f :: rest, i =>
    if uploadOk i then
      let rec0 : UploadedFileRecord :=
        { name := f.name, url := publicUrl (storageKey (epochAt i) f.name) }
      let r := uploadLoop total uploadOk epochAt publicUrl rest (i + 1)
      { records := rec0 :: r.records,
        progressValues := roundPct (i + 1) total :: r.progressValues,
        attempted := r.attempted + 1, ok := r.ok }
    else
      { records := [], progressValues := [], attempted := 1, ok := false }

/-- Everything observable about one `handleSubmit` run. -/
structure SubmitOutcome where
  startState : ComponentState
  finalState : ComponentState
  uploaded : List UploadedFileRecord
  attempted : Nat
  inserted : List SubmissionPayload
  progressTrace : List Nat
  formReset : Bool
  deriving Repr, DecidableEq

/-- Embedding of `handleSubmit`. Step 1 sets submitting, clears error and
success, resets progress. The upload loop runs over `s.files`; on success the
single insert is attempted (`insertOk` tells whether it succeeds); any thrown
error lands in the `catch` block, which clears submitting, sets the generic
error and resets progress. `nowIso` is `new Date().toISOString()`. -/
def handleSubmit (s : ComponentState) (form : FormFields) (uploadOk : Nat → Bool)
    (insertOk : Bool) (epochAt : Nat → Nat) (publicUrl : String → String)
    (nowIso : String) : SubmitOutcome :=
  let s1 := { s with submitting := true, error := "", success := false, progress := 0 }
  let r := uploadLoop s.files.length uploadOk epochAt publicUrl s.files 0
  let errState := { s1 with submitting := false, error := uploadFailedError, progress := 0 }
  if r.ok then
    let payload : SubmissionPayload :=
      { name := form.name, email := form.email, message := form.message,
        files := r.records, submitted_at := nowIso }
    if insertOk then
      let okState := { s1 with submitting := false, success := true,
                               files := ([] : List SelectedFile),
                               filePreviews := ([] : List String), progress := 0 }
      { startState := s1, finalState := okState,
        uploaded := r.records, attempted := r.attempted, inserted := [payload],
        progressTrace := r.progressValues, formReset := true }
    else
      { startState := s1, finalState := errState,
        uploaded := r.records, attempted := r.attempted, inserted := [payload],
        progressTrace := r.progressValues, formReset := false }
  else
    { startState := s1, finalState := errState,
      uploaded := r.records, attempted := r.attempted, inserted := [],
      progressTrace := r.progressValues, formReset := false }

/-! Helper lemmas. -/

theorem sanitizeChar_idem (c : Char) : sanitizeChar (sanitizeChar c) = sanitizeChar c := by
  by_cases h : isAllowedChar c = true
  · simp [sanitizeChar, h]
  · simp only [sanitizeChar, h, Bool.false_eq_true, if_false, if_neg]
    decide

theorem digitChar_isDigit (d : Nat) : (digitChar d).isDigit = true := by
  unfold digitChar
  split <;> decide

theorem natToDigitsAux_all_digits :
    ∀ (fuel n : Nat) (acc : List Char), (∀ c ∈ acc, c.isDigit = true) →
      ∀ c ∈ natToDigitsAux fuel n acc, c.isDigit = true := by
  intro fuel
  induction fuel with
  | zero => intro n acc hacc c hc; exact hacc c hc
  | succ f ih =>
    intro n acc hacc c hc
    simp only [natToDigitsAux] at hc
    split at hc
    · rcases List.mem_cons.mp hc with h | h
      · exact h ▸ digitChar_isDigit n
      · exact hacc c h
    · refine ih (n / 10) _ ?_ c hc
      intro d hd
      rcases List.mem_cons.mp hd with h | h
      · exact h ▸ digitChar_isDigit (n % 10)
      · exact hacc d h

theorem natToDigits_all_digits (n : Nat) (acc : List Char)
    (hacc : ∀ c ∈ acc, c.isDigit = true) :
    ∀ c ∈ natToDigits n acc, c.isDigit = true :=
  natToDigitsAux_all_digits (n + 1) n acc hacc

theorem natToDigitsAux_ne_nil :
    ∀ (fuel n : Nat) (acc : List Char), acc ≠ [] → natToDigitsAux fuel n acc ≠ [] := by
  intro fuel
  induction fuel with
  | zero => intro n acc h; exact h
  | succ f ih =>
    intro n acc h
    simp only [natToDigitsAux]
    split
    · simp
    · exact ih (n / 10) _ (by simp)

theorem natToDigits_ne_nil (n : Nat) (acc : List Char) : natToDigits n acc ≠ [] := by
  rw [natToDigits]
  simp only [natToDigitsAux]
  split
  · simp
  · exact natToDigitsAux_ne_nil n (n / 10) _ (by simp)

theorem takeWhile_append_all (p : α → Bool) (l1 l2 : List α)
    (h : ∀ c ∈ l1, p c = true) :
    (l1 ++ l2).takeWhile p = l1 ++ l2.takeWhile p := by
  induction l1 with
  | nil => simp
  | cons a l ih =>
    simp [List.takeWhile_cons, h a (List.mem_cons_self a l)]
    exact ih (fun c hc => h c (List.mem_cons_of_mem a hc))

theorem dropWhile_append_all (p : α → Bool) (l1 l2 : List α)
    (h : ∀ c ∈ l1, p c = true) :
    (l1 ++ l2).dropWhile p = l2.dropWhile p := by
  induction l1 with
  | nil => simp
  | cons a l ih =>
    simp [List.dropWhile_cons, h a (List.mem_cons_self a l)]
    exact ih (fun c hc => h c (List.mem_cons_of_mem a hc))

theorem filter_enumFrom_gt (l : List α) (index : Nat) :
    ∀ k, index < k →
      ((List.enumFrom k l).filter (fun p => p.1 != index)).map Prod.snd = l := by
  induction l with
  | nil => simp
  | cons a l ih =>
    intro k hk
    have hne : (k != index) = true := by simp [bne_iff_ne]; omega
    simp only [List.enumFrom, List.filter_cons, hne, if_true, List.map_cons]
    rw [ih (k + 1) (by omega)]

theorem filter_enumFrom_le (l : List α) (index : Nat) :
    ∀ k, k ≤ index →
      ((List.enumFrom k l).filter (fun p => p.1 != index)).map Prod.snd
        = l.take (index - k) ++ l.drop (index - k + 1) := by
  induction l with
  | nil => simp
  | cons a l ih =>
    intro k hk
    by_cases hki : k = index
    · subst hki
      have hne : (k != k) = false := by simp
      simp only [List.enumFrom, List.filter_cons, hne, if_false, Nat.sub_self,
        List.take_zero, List.nil_append, List.drop_succ_cons, List.drop_zero]
      exact filter_enumFrom_gt l k (k + 1) (by omega)
    · have hklt : k < index := by omega
      have hne : (k != index) = true := by simp [bne_iff_ne]; omega
      have h1 : index - k = (index - (k + 1)) + 1 := by omega
      simp only [List.enumFrom, List.filter_cons, hne, if_true, List.map_cons, h1,
        List.take_succ_cons, List.drop_succ_cons, List.cons_append]
      rw [ih (k + 1) (by omega)]

theorem filterIdxNe_eq (l : List α) (index : Nat) :
    filterIdxNe index l = l.take index ++ l.drop (index + 1) := by
  have h := filter_enumFrom_le l index 0 (Nat.zero_le _)
  simpa [filterIdxNe, List.enum] using h

theorem filterIdxNe_of_ge (l : List α) (index : Nat) (h : l.length ≤ index) :
    filterIdxNe index l = l := by
  rw [filterIdxNe_eq, List.take_of_length_le h, List.drop_eq_nil_of_le (by omega),
    List.append_nil]

theorem filterIdxNe_length (l : List α) (index : Nat) (h : index < l.length) :
    (filterIdxNe index l).length = l.length - 1 := by
  rw [filterIdxNe_eq]
  simp only [List.length_append, List.length_take, List.length_drop]
  omega

/-- Concrete state with two selected files and two aligned previews. -/
def exampleTwoFileState : ComponentState :=
  { initialState with files := [⟨"a", "t"⟩, ⟨"b", "t"⟩], filePreviews := ["p", "q"] }

/-- Concrete state with one selected image file and one preview. -/
def exampleOneFileState : ComponentState :=
  { initialState with files := [⟨"a.png", "image/png"⟩], filePreviews := ["u"] }

/-- Concrete state with three selected plain-text files. -/
def exampleThreeFileState : ComponentState :=
  { initialState with
    files := [⟨"a", "text/plain"⟩, ⟨"b", "text/plain"⟩, ⟨"c", "text/plain"⟩] }

/-- Concrete submission payload for the C8 scenario. -/
def adaPayload (nowIso : String) : SubmissionPayload :=
  { name := "Ada", email := "ada@x.com", message := "Hello", files := [],
    submitted_at := nowIso }

/-! Claim theorems. -/

/-- C9: the file-name sanitization function is idempotent: for every string
`s`, `sanitizeFileName (sanitizeFileName s) = sanitizeFileName s`. -/
theorem C9_sanitize_idempotent (s : String) :
    sanitizeFileName (sanitizeFileName s) = sanitizeFileName s := by
  unfold sanitizeFileName
  rw [show (String.mk (s.data.map sanitizeChar)).data = s.data.map sanitizeChar from rfl,
    List.map_map]
  exact congrArg String.mk (List.map_congr_left fun c _ => sanitizeChar_idem c)

/-- C3 counterexample: at epoch 1700000000000 the storage key generated for
`my photo (1).MOV` does not match the spec's regex `^\d+_my_photo__1__\.MOV$`:
the `)` before the dot sanitizes to a single underscore, not two. -/
theorem C3_counterexample :
    matchesSpecKeyRegex (storageKey 1700000000000 "my photo (1).MOV") = false := by
  decide

/-- C3 amended: for every epoch value, the storage key generated for a file
named `my photo (1).MOV` matches the regex `^\d+_my_photo__1_\.MOV$` (a single
underscore between the `1` and the dot). -/
theorem C3_key_matches (epoch : Nat) :
    matchesActualKeyRegex (storageKey epoch "my photo (1).MOV") = true := by
  have hsan : sanitizeFileName "my photo (1).MOV" = "my_photo__1_.MOV" := by decide
  have hdata : (storageKey epoch "my photo (1).MOV").data
      = natToDigits epoch [] ++ "_my_photo__1_.MOV".data := by
    rw [storageKey, hsan, String.data_append, String.data_append]
    rw [show (jsNumToString epoch).data = natToDigits epoch [] from rfl]
    rw [List.append_assoc]
    rfl
  have hdigits : ∀ c ∈ natToDigits epoch [], (fun c => c.isDigit) c = true :=
    natToDigits_all_digits epoch [] (by simp)
  have htake : (storageKey epoch "my photo (1).MOV").data.takeWhile (fun c => c.isDigit)
      = natToDigits epoch [] ++ "_my_photo__1_.MOV".data.takeWhile (fun c => c.isDigit) := by
    rw [hdata]; exact takeWhile_append_all _ _ _ hdigits
  have hdrop : (storageKey epoch "my photo (1).MOV").data.dropWhile (fun c => c.isDigit)
      = "_my_photo__1_.MOV".data.dropWhile (fun c => c.isDigit) := by
    rw [hdata]; exact dropWhile_append_all _ _ _ hdigits
  unfold matchesActualKeyRegex matchesDigitsThen
  simp only [Bool.and_eq_true, decide_eq_true_eq, beq_iff_eq]
  constructor
  · rw [htake]
    intro hnil
    exact natToDigits_ne_nil epoch [] (List.append_eq_nil.mp hnil).1
  · rw [hdrop]
    decide

/-- C6: in `generateThumbnail`, when the media element fires `onerror` the
promise resolves to "" but the object URL created for the element is never
revoked — for video and image files alike (the `onloadeddata`/`onload`
handlers do revoke it). The claim that both completion paths release the URL
is contradicted by the error path. -/
theorem C6_url_leak_on_error :
    (generateThumbnail ⟨"clip.mov", "video/quicktime"⟩ .loadFailure "d").urlCreated = true ∧
    (generateThumbnail ⟨"clip.mov", "video/quicktime"⟩ .loadFailure "d").urlRevoked = false ∧
    (generateThumbnail ⟨"pic.png", "image/png"⟩ .loadFailure "d").urlCreated = true ∧
    (generateThumbnail ⟨"pic.png", "image/png"⟩ .loadFailure "d").urlRevoked = false ∧
    (generateThumbnail ⟨"clip.mov", "video/quicktime"⟩ (.loadSuccess true) "d").urlRevoked = true ∧
    (generateThumbnail ⟨"pic.png", "image/png"⟩ (.loadSuccess true) "d").urlRevoked = true := by
  decide

/-- C5: selecting strictly more than 10 files — whatever their mime types —
leaves the component with an empty file list, an empty preview list, and the
capacity error message "You can upload a maximum of 10 files.". -/
theorem C5_over_capacity (s : ComponentState) (selected : List SelectedFile)
    (outcome : Nat → LoadOutcome) (uri : Nat → String) (h : 10 < selected.length) :
    (handleFileChangeTrace s selected outcome uri).getLast?
      = some { s with error := "You can upload a maximum of 10 files.",
                      files := [], filePreviews := [] } := by
  simp [handleFileChangeTrace, h, capacityError]

/-- C5 witness: eleven plain-text files get rejected wholesale. -/
theorem C5_witness :
    (handleFileChangeTrace initialState
        (List.replicate 11 ⟨"f.txt", "text/plain"⟩)
        (fun _ => .loadFailure) (fun _ => "")).getLast?
      = some { initialState with error := "You can upload a maximum of 10 files.",
                                 files := [], filePreviews := [] } :=
  C5_over_capacity initialState (List.replicate 11 ⟨"f.txt", "text/plain"⟩)
    (fun _ => .loadFailure) (fun _ => "") (by decide)

/-- C10: for every selection of at most 10 files, `handleFileChange` first
sets the error message to the empty string (state 0 of the trace, where the
stored file list is still the old one) and only then stores the new
selection (state 1 of the trace). -/
theorem C10_error_cleared (s : ComponentState) (selected : List SelectedFile)
    (outcome : Nat → LoadOutcome) (uri : Nat → String) (h : selected.length ≤ 10) :
    (handleFileChangeTrace s selected outcome uri)[0]? = some { s with error := "" } ∧
    (handleFileChangeTrace s selected outcome uri)[1]?
      = some { s with error := "", files := selected } := by
  have hnot : ¬ selected.length > 10 := by omega
  simp [handleFileChangeTrace, hnot]

/-- C10 witness: after a capacity error, re-selecting a single file clears the
error message before the new selection is stored. -/
theorem C10_witness :
    (handleFileChangeTrace { initialState with error := "You can upload a maximum of 10 files." }
        [⟨"a.txt", "text/plain"⟩] (fun _ => .loadFailure) (fun _ => ""))[0]?
      = some { initialState with error := "" } ∧
    (handleFileChangeTrace { initialState with error := "You can upload a maximum of 10 files." }
        [⟨"a.txt", "text/plain"⟩] (fun _ => .loadFailure) (fun _ => ""))[1]?
      = some { initialState with error := "", files := [⟨"a.txt", "text/plain"⟩] } :=
  C10_error_cleared { initialState with error := "You can upload a maximum of 10 files." }
    [⟨"a.txt", "text/plain"⟩] (fun _ => .loadFailure) (fun _ => "") (by decide)

/-- C2 counterexample: starting from the initial state and selecting one plain
file, the component passes through a state (right after `setFiles(selected)`,
before the awaited thumbnails are stored) in which the file list has length 1
while the preview list is still empty — so the length invariant does not hold
at every reachable state between selection and thumbnail completion. -/
theorem C2_counterexample :
    ¬ (∀ st ∈ handleFileChangeTrace initialState [⟨"a.txt", "text/plain"⟩]
          (fun _ => .loadFailure) (fun _ => ""),
        st.files.length = st.filePreviews.length) := by
  decide

/-- C2 amended: the length invariant `len(files) = len(previews)` holds at
every *settled* state: it holds in the final state of every `handleFileChange`
run (both the over-capacity and the normal branch), and it is preserved by
`removeFile`; only the transient state between storing the selection and
storing the freshly generated previews can violate it. -/
theorem C2_invariant_amended :
    (∀ (s : ComponentState) (selected : List SelectedFile) (outcome : Nat → LoadOutcome)
        (uri : Nat → String) (st : ComponentState),
        (handleFileChangeTrace s selected outcome uri).getLast? = some st →
        st.files.length = st.filePreviews.length) ∧
    (∀ (s : ComponentState) (i : Nat), s.files.length = s.filePreviews.length →
        (removeFile s i).files.length = (removeFile s i).filePreviews.length) := by
  constructor
  · intro s selected outcome uri st hlast
    rw [handleFileChangeTrace] at hlast
    split at hlast
    · simp at hlast
      rw [← hlast]
      rfl
    · simp at hlast
      rw [← hlast]
      simp [List.enum_length]
  · intro s i h
    by_cases hi : i < s.files.length
    · show (filterIdxNe i s.files).length = (filterIdxNe i s.filePreviews).length
      rw [filterIdxNe_length _ _ hi, filterIdxNe_length _ _ (by omega), h]
    · show (filterIdxNe i s.files).length = (filterIdxNe i s.filePreviews).length
      rw [filterIdxNe_of_ge _ _ (by omega), filterIdxNe_of_ge _ _ (by omega), h]

/-- C2 amended witness: the invariant holds after a concrete selection of two
files and after a concrete removal. -/
theorem C2_witness :
    (∃ st, (handleFileChangeTrace initialState
        [⟨"a.png", "image/png"⟩, ⟨"b.txt", "text/plain"⟩]
        (fun _ => .loadSuccess true) (fun _ => "u")).getLast? = some st ∧
      st.files.length = st.filePreviews.length) ∧
    (removeFile exampleOneFileState 0).files.length
      = (removeFile exampleOneFileState 0).filePreviews.length := by
  constructor
  · refine ⟨_, rfl, ?_⟩
    exact C2_invariant_amended.1 initialState
      [⟨"a.png", "image/png"⟩, ⟨"b.txt", "text/plain"⟩]
      (fun _ => .loadSuccess true) (fun _ => "u") _ rfl
  · exact C2_invariant_amended.2 exampleOneFileState 0 (by decide)

/-- C7: `removeFile i` on a state whose two lists are aligned: for an
in-range index both lists lose exactly the entry at position `i` (the result
is `take i ++ drop (i+1)`, so higher entries shift down by one) and both
lengths become `n - 1`; for an out-of-range index both lists are unchanged. -/
theorem C7_removeFile_spec (s : ComponentState) (i : Nat)
    (hlen : s.files.length = s.filePreviews.length) :
    (i < s.files.length →
      (removeFile s i).files.length = s.files.length - 1 ∧
      (removeFile s i).filePreviews.length = s.files.length - 1 ∧
      (removeFile s i).files = s.files.take i ++ s.files.drop (i + 1) ∧
      (removeFile s i).filePreviews
        = s.filePreviews.take i ++ s.filePreviews.drop (i + 1)) ∧
    (s.files.length ≤ i →
      (removeFile s i).files = s.files ∧
      (removeFile s i).filePreviews = s.filePreviews) := by
  constructor
  · intro h
    refine ⟨filterIdxNe_length _ _ h, ?_, filterIdxNe_eq _ _, filterIdxNe_eq _ _⟩
    rw [show (removeFile s i).filePreviews = filterIdxNe i s.filePreviews from rfl,
      filterIdxNe_length _ _ (by omega), hlen]
  · intro h
    exact ⟨filterIdxNe_of_ge _ _ h, filterIdxNe_of_ge _ _ (by omega)⟩

/-- C7 witness: removing index 1 from a two-file state drops the second
entry of both lists; removing index 5 changes nothing. -/
theorem C7_witness :
    ((removeFile exampleTwoFileState 1).files = [⟨"a", "t"⟩] ∧
     (removeFile exampleTwoFileState 1).filePreviews = ["p"]) ∧
    (removeFile exampleTwoFileState 5).files = [⟨"a", "t"⟩, ⟨"b", "t"⟩] := by
  have h := C7_removeFile_spec exampleTwoFileState 1 (by decide)
  have h5 := C7_removeFile_spec exampleTwoFileState 5 (by decide)
  refine ⟨⟨?_, ?_⟩, ?_⟩
  · rw [(h.1 (by decide)).2.2.1]; decide
  · rw [(h.1 (by decide)).2.2.2]; decide
  · rw [(h5.2 (by decide)).1]; decide

/-- C1 counterexample: for a concrete upload of 3 files that all succeed, the
reported progress sequence is [33, 67, 100], not [34, 67, 100]: round-half-up
of 100·1/3 = 33.33… is 33. -/
theorem C1_counterexample :
    (handleSubmit exampleThreeFileState ⟨"n", "e", "m"⟩ (fun _ => true) true
        (fun _ => 0) (fun s => s) "t").progressTrace = [33, 67, 100] ∧
    (handleSubmit exampleThreeFileState ⟨"n", "e", "m"⟩ (fun _ => true) true
        (fun _ => 0) (fun s => s) "t").progressTrace ≠ [34, 67, 100] := by
  decide

/-- C1 amended: for every upload of exactly 3 files that all succeed, the
sequence of progress values (round-half-up of 100·completed/3 after each
file) is exactly [33, 67, 100]. -/
theorem C1_progress_sequence (s : ComponentState) (form : FormFields)
    (uploadOk : Nat → Bool) (insertOk : Bool) (epochAt : Nat → Nat)
    (publicUrl : String → String) (nowIso : String)
    (h3 : s.files.length = 3) (hok : ∀ i, uploadOk i = true) :
    (handleSubmit s form uploadOk insertOk epochAt publicUrl nowIso).progressTrace
      = [33, 67, 100] := by
  obtain ⟨a, b, c, hf⟩ := List.length_eq_three.mp h3
  cases insertOk <;>
    simp [handleSubmit, hf, uploadLoop, hok 0, hok 1, hok 2, roundPct]

/-- C1 amended witness: three concrete files, all uploads succeeding. -/
theorem C1_witness :
    (handleSubmit exampleThreeFileState ⟨"n", "e", "m"⟩ (fun _ => true) true
        (fun _ => 0) (fun s => s) "t").progressTrace = [33, 67, 100] :=
  C1_progress_sequence exampleThreeFileState ⟨"n", "e", "m"⟩ (fun _ => true) true
    (fun _ => 0) (fun s => s) "t" (by decide) (fun _ => rfl)

/-- C4: submitting 3 files where the 1st upload succeeds and the 2nd fails:
exactly one UploadedFileRecord is produced, only 2 upload calls are made (the
3rd file is never attempted), the table insert is never attempted, and the
final UI state is Error with the generic message and progress 0. -/
theorem C4_second_upload_fails (s : ComponentState) (form : FormFields)
    (uploadOk : Nat → Bool) (insertOk : Bool) (epochAt : Nat → Nat)
    (publicUrl : String → String) (nowIso : String)
    (h3 : s.files.length = 3) (h0 : uploadOk 0 = true) (h1 : uploadOk 1 = false) :
    (handleSubmit s form uploadOk insertOk epochAt publicUrl nowIso).uploaded.length = 1 ∧
    (handleSubmit s form uploadOk insertOk epochAt publicUrl nowIso).attempted = 2 ∧
    (handleSubmit s form uploadOk insertOk epochAt publicUrl nowIso).inserted = [] ∧
    uiStateOf (handleSubmit s form uploadOk insertOk epochAt publicUrl nowIso).finalState
      = .Error "Upload failed. Please try again." ∧
    (handleSubmit s form uploadOk insertOk epochAt publicUrl nowIso).finalState.progress
      = 0 := by
  obtain ⟨a, b, c, hf⟩ := List.length_eq_three.mp h3
  simp [handleSubmit, hf, uploadLoop, h0, h1, uiStateOf, uploadFailedError]

/-- C4 witness: three concrete files with the second upload failing. -/
theorem C4_witness :
    (handleSubmit exampleThreeFileState ⟨"n", "e", "m"⟩ (fun i => i == 0) true
        (fun _ => 0) (fun s => s) "t").uploaded.length = 1 ∧
    (handleSubmit exampleThreeFileState ⟨"n", "e", "m"⟩ (fun i => i == 0) true
        (fun _ => 0) (fun s => s) "t").attempted = 2 ∧
    (handleSubmit exampleThreeFileState ⟨"n", "e", "m"⟩ (fun i => i == 0) true
        (fun _ => 0) (fun s => s) "t").inserted = [] ∧
    uiStateOf (handleSubmit exampleThreeFileState ⟨"n", "e", "m"⟩ (fun i => i == 0) true
        (fun _ => 0) (fun s => s) "t").finalState
      = .Error "Upload failed. Please try again." ∧
    (handleSubmit exampleThreeFileState ⟨"n", "e", "m"⟩ (fun i => i == 0) true
        (fun _ => 0) (fun s => s) "t").finalState.progress = 0 :=
  C4_second_upload_fails exampleThreeFileState ⟨"n", "e", "m"⟩ (fun i => i == 0) true
    (fun _ => 0) (fun s => s) "t" (by decide) rfl rfl

/-- C8: a submit with name "Ada", email "ada@x.com", message "Hello" and zero
selected files, whose insert succeeds, performs exactly one insert with an
empty file sequence, transitions Idle → Submitting(0) → Success, resets the
form, clears selection and previews, and resets progress to 0 (with no upload
ever attempted). -/
theorem C8_empty_submit (s : ComponentState) (uploadOk : Nat → Bool)
    (epochAt : Nat → Nat) (publicUrl : String → String) (nowIso : String)
    (hfiles : s.files = []) (_hidle : uiStateOf s = .Idle) :
    (handleSubmit s ⟨"Ada", "ada@x.com", "Hello"⟩ uploadOk true epochAt publicUrl
        nowIso).inserted = [adaPayload nowIso] ∧
    uiStateOf (handleSubmit s ⟨"Ada", "ada@x.com", "Hello"⟩ uploadOk true epochAt publicUrl
        nowIso).startState = .Submitting 0 ∧
    uiStateOf (handleSubmit s ⟨"Ada", "ada@x.com", "Hello"⟩ uploadOk true epochAt publicUrl
        nowIso).finalState = .Success ∧
    (handleSubmit s ⟨"Ada", "ada@x.com", "Hello"⟩ uploadOk true epochAt publicUrl
        nowIso).formReset = true ∧
    (handleSubmit s ⟨"Ada", "ada@x.com", "Hello"⟩ uploadOk true epochAt publicUrl
        nowIso).finalState.files = [] ∧
    (handleSubmit s ⟨"Ada", "ada@x.com", "Hello"⟩ uploadOk true epochAt publicUrl
        nowIso).finalState.filePreviews = [] ∧
    (handleSubmit s ⟨"Ada", "ada@x.com", "Hello"⟩ uploadOk true epochAt publicUrl
        nowIso).finalState.progress = 0 ∧
    (handleSubmit s ⟨"Ada", "ada@x.com", "Hello"⟩ uploadOk true epochAt publicUrl
        nowIso).attempted = 0 := by
  simp [handleSubmit, hfiles, uploadLoop, uiStateOf, adaPayload]

/-- C8 witness: the empty-selection submit from the initial (Idle) state. -/
theorem C8_witness :
    (handleSubmit initialState ⟨"Ada", "ada@x.com", "Hello"⟩ (fun _ => true) true
        (fun _ => 0) (fun s => s) "2026-01-01T00:00:00.000Z").inserted
      = [adaPayload "2026-01-01T00:00:00.000Z"] ∧
    uiStateOf (handleSubmit initialState ⟨"Ada", "ada@x.com", "Hello"⟩ (fun _ => true) true
        (fun _ => 0) (fun s => s) "2026-01-01T00:00:00.000Z").startState = .Submitting 0 ∧
    uiStateOf (handleSubmit initialState ⟨"Ada", "ada@x.com", "Hello"⟩ (fun _ => true) true
        (fun _ => 0) (fun s => s) "2026-01-01T00:00:00.000Z").finalState = .Success ∧
    (handleSubmit initialState ⟨"Ada", "ada@x.com", "Hello"⟩ (fun _ => true) true
        (fun _ => 0) (fun s => s) "2026-01-01T00:00:00.000Z").formReset = true ∧
    (handleSubmit initialState ⟨"Ada", "ada@x.com", "Hello"⟩ (fun _ => true) true
        (fun _ => 0) (fun s => s) "2026-01-01T00:00:00.000Z").finalState.files = [] ∧
    (handleSubmit initialState ⟨"Ada", "ada@x.com", "Hello"⟩ (fun _ => true) true
        (fun _ => 0) (fun s => s) "2026-01-01T00:00:00.000Z").finalState.filePreviews = [] ∧
    (handleSubmit initialState ⟨"Ada", "ada@x.com", "Hello"⟩ (fun _ => true) true
        (fun _ => 0) (fun s => s) "2026-01-01T00:00:00.000Z").finalState.progress = 0 ∧
    (handleSubmit initialState ⟨"Ada", "ada@x.com", "Hello"⟩ (fun _ => true) true
        (fun _ => 0) (fun s => s) "2026-01-01T00:00:00.000Z").attempted = 0 :=
  C8_empty_submit initialState (fun _ => true) (fun _ => 0) (fun s => s)
    "2026-01-01T00:00:00.000Z" rfl (by decide)

end Mar5
